import Mathlib

/-!
Verification of the sparkwallet secret-vault / session / initialization /
claim-loop / balance-reconciliation core.

The development shallowly embeds the TypeScript sources:
  * `src/unnamed/part_010` — `encryptMnemonic` / `decryptMnemonic`
    (PBKDF2 + AES-GCM envelope, `salt(16) || iv(12) || ciphertext`);
  * `src/unnamed/part_009` — the `useMnemonicStore` zustand store
    (`saveEncryptedMnemonic`, `getDecryptedMnemonic`, `startSession`,
    `getSessionMnemonic`, `endSession`, `clearEncryptedMnemonic`) wrapped in
    the `persist` middleware under the durable key "mnemonic-storage";
  * `src/unnamed/part_008` — the `useWalletStore` store: `loadStoredWallet`
    (initialization state machine), the `l1Deposit` polling query (deposit
    claim loop) and the `handleBalanceUpdate` event handler (balance
    reconciler).

The WebCrypto primitives (`window.crypto.subtle` PBKDF2 and AES-GCM) are not
part of the repository; they are modelled as an ideal password KDF and an
ideal authenticated cipher: the derived key is determined by (password, salt)
and distinct passwords give distinct keys; an AES-GCM ciphertext determines
(key, iv, plaintext) and decryption succeeds exactly when it is presented
with the same key and iv, failing (tag mismatch) otherwise.  Bytes are
modelled as `Nat`; the base64 transport (`btoa`/`atob`), an injective
round-trip, is elided, so envelopes are byte lists.
-/

deriving instance DecidableEq for Except

namespace SparkWallet

/-- Bytes of a string (model of `TextEncoder.encode`); injective. -/
def strBytes (s : String) : List Nat := s.data.map Char.toNat

/-- String from bytes (model of `TextDecoder.decode`); left inverse of
`strBytes`. -/
def bytesStr (l : List Nat) : String := String.mk (l.map Char.ofNat)

/-- Length-prefix a byte list (used by the ideal-cipher encoding so that a
ciphertext determines the key, iv and plaintext that produced it). -/
def encL (l : List Nat) : List Nat := l.length :: l

/-- Read back one length-prefixed list, returning it and the remainder. -/
def decL : List Nat → Option (List Nat × List Nat)
  | [] => none
  | n :: rest => if n ≤ rest.length then some (rest.take n, rest.drop n) else none

/-- Ideal PBKDF2 (SHA-256, 100000 iterations in the source): the derived
AES key is a function of the password and the salt, and distinct passwords
yield distinct keys for the same salt. -/
def deriveKey (password : String) (salt : List Nat) : List Nat :=
  encL (strBytes password) ++ salt

/-- Ideal AES-GCM encryption: the ciphertext (with its tag) is an encoding
that determines the key, the iv and the plaintext. -/
def aesGcmEncrypt (key iv data : List Nat) : List Nat :=
  encL key ++ encL iv ++ data

/-- Ideal AES-GCM decryption: recovers the plaintext exactly when the
ciphertext was produced under the same key and iv; any other combination is
a tag mismatch and fails. -/
def aesGcmDecrypt (key iv ct : List Nat) : Option (List Nat) :=
  match decL ct with
  | none => none
  | some (k, rest) =>
    match decL rest with
    | none => none
    | some (i, m) => if k = key ∧ i = iv then some m else none

/-- `encryptMnemonic` (src/unnamed/part_010): derive a key from the password
and a fresh 16-byte salt, encrypt under a fresh 12-byte iv, and return
`salt || iv || ciphertext`.  Randomness (salt, iv) is passed explicitly. -/
def encryptMnemonic (mnemonic password : String) (salt iv : List Nat) : List Nat :=
  salt ++ iv ++ aesGcmEncrypt (deriveKey password salt) iv (strBytes mnemonic)

/-- `decryptMnemonic` (src/unnamed/part_010): split the envelope as
`salt = enc[0:16]`, `iv = enc[16:28]`, `ct = enc[28:]`, re-derive the key
from the password and the extracted salt, and decrypt; every decryption
failure is caught and rethrown as the single error "Invalid password". -/
def decryptMnemonic (enc : List Nat) (password : String) : Except String String :=
  let salt := enc.take 16
  let iv := (enc.drop 16).take 12
  let ct := enc.drop 28
  match aesGcmDecrypt (deriveKey password salt) iv ct with
  | some m => .ok (bytesStr m)
  | none => .error "Invalid password"

/-! ## The mnemonic store (src/unnamed/part_009)

`useMnemonicStore` is a zustand store wrapped in the `persist` middleware
with `\x7b name: "mnemonic-storage" \x7d` and no `partialize` and no custom
`storage`, so every serializable state field — `encryptedMnemonic`,
`sessionEncryptedMnemonic` and `session` — is written to durable
`localStorage` and restored on the next application start.

Randomness (`crypto.randomUUID`, fresh salts and ivs) and the clock
(`Date.now()`) are passed explicitly.  JavaScript truthiness of the
`string | null` fields is modelled faithfully: `null` and the empty string
are both falsy. -/

/-- `Session` record of the store: `sessionKey: string | null`,
`expiresAt: number | null` (milliseconds). -/
structure Session where
  sessionKey : Option String
  expiresAt : Option Nat
deriving Repr, DecidableEq

/-- The data fields of `MnemonicState` (the actions close over `set`/`get`
and are not state). -/
structure MnemonicState where
  encryptedMnemonic : Option (List Nat)
  sessionEncryptedMnemonic : Option (List Nat)
  session : Session
deriving Repr, DecidableEq

/-- Initial store state: all fields null. -/
def initialMnemonicState : MnemonicState :=
  { encryptedMnemonic := none
    sessionEncryptedMnemonic := none
    session := { sessionKey := none, expiresAt := none } }

/-- `saveEncryptedMnemonic`: seal the mnemonic under the password and store
the envelope. -/
def saveEncryptedMnemonic (st : MnemonicState) (mnemonic password : String)
    (salt iv : List Nat) : MnemonicState :=
  { st with encryptedMnemonic := some (encryptMnemonic mnemonic password salt iv) }

/-- `getDecryptedMnemonic`: throws "No encrypted mnemonic found" when no
vault exists, otherwise decrypts the persisted vault with the password. -/
def getDecryptedMnemonic (st : MnemonicState) (password : String) :
    Except String String :=
  match st.encryptedMnemonic with
  | none => .error "No encrypted mnemonic found"
  | some e => decryptMnemonic e password

/-- `startSession`: decrypt the vault with the password (propagating any
failure before any state change), generate a session key, re-encrypt the
mnemonic under it, and set `expiresAt = now + 30 * 60 * 1000`.  The result
pairs the post-call state with the call's outcome; on failure the state is
the untouched input state, because the source's `set` runs only after
`getDecryptedMnemonic` has succeeded. -/
def startSession (st : MnemonicState) (password sessionKey : String)
    (salt iv : List Nat) (now : Nat) : MnemonicState × Except String Unit :=
  match getDecryptedMnemonic st password with
  | .error e => (st, .error e)
  | .ok mnemonic =>
    ({ st with
        sessionEncryptedMnemonic :=
          some (encryptMnemonic mnemonic sessionKey salt iv)
        session :=
          { sessionKey := some sessionKey, expiresAt := some (now + 30 * 60 * 1000) } },
      .ok ())

/-- `getSessionMnemonic`: when the session key, expiry and session envelope
are all present (and truthy) and `now < expiresAt`, decrypt the session
envelope under the session key (a decryption failure would propagate as a
rejection); otherwise return null. -/
def getSessionMnemonic (st : MnemonicState) (now : Nat) :
    Except String (Option String) :=
  match st.session.sessionKey, st.session.expiresAt, st.sessionEncryptedMnemonic with
  | some key, some exp, some senc =>
    if key ≠ "" ∧ now < exp ∧ senc ≠ [] then
      match decryptMnemonic senc key with
      | .ok m => .ok (some m)
      | .error e => .error e
    else .ok none
  | _, _, _ => .ok none

/-- `endSession`: discard the session key, expiry and session envelope. -/
def endSession (st : MnemonicState) : MnemonicState :=
  { st with
      session := { sessionKey := none, expiresAt := none }
      sessionEncryptedMnemonic := none }

/-- `clearEncryptedMnemonic`: discard the vault and the session. -/
def clearEncryptedMnemonic (_st : MnemonicState) : MnemonicState :=
  initialMnemonicState

/-- The JSON object the `persist` middleware writes to `localStorage` under
"mnemonic-storage": with no `partialize` option, it carries every
serializable state field. -/
structure PersistedMnemonicStorage where
  encryptedMnemonic : Option (List Nat)
  sessionEncryptedMnemonic : Option (List Nat)
  session : Session
deriving Repr, DecidableEq

/-- What `persist` serializes on every state change. -/
def persistWrite (st : MnemonicState) : PersistedMnemonicStorage :=
  { encryptedMnemonic := st.encryptedMnemonic
    sessionEncryptedMnemonic := st.sessionEncryptedMnemonic
    session := st.session }

/-- Rehydration on application start: the persisted fields are merged over
the initial state. -/
def rehydrate (p : PersistedMnemonicStorage) : MnemonicState :=
  { encryptedMnemonic := p.encryptedMnemonic
    sessionEncryptedMnemonic := p.sessionEncryptedMnemonic
    session := p.session }

/-- A full application restart: volatile memory is discarded and the store
is rebuilt from what the persist middleware had written to durable storage. -/
def restartApp (st : MnemonicState) : MnemonicState :=
  rehydrate (persistWrite st)

/-! ## The wallet store (src/unnamed/part_008) -/

/-- `InitializationStatus` of `useWalletStore`. -/
inductive InitializationStatus
  | idle
  | loading
  | success
  | needs_password
  | no_wallet
  | error
deriving Repr, DecidableEq

/-- Initial `btcBalance` of `useWalletStore`: `undefined`. -/
def initialBtcBalance : Option Nat := none

/-- JavaScript truthiness of a `string | null` value: `null` and `""` are
falsy (model of `if (sessionMnemonic)` etc.). -/
def getStr (o : Option String) : Option String :=
  match o with
  | some s => if s = "" then none else some s
  | none => none

/-- Volatile, process-scoped `sessionStorage`: the plaintext mnemonic cached
under "spark_wallet_mnemonic" after a successful init, and the raw seed
cached under "spark_wallet_seed". -/
structure VolatileStorage where
  sessionMnemonic : Option String
  storedSeed : Option String
deriving Repr, DecidableEq

/-- The action `loadStoredWallet` decides on, as observable from its calls:
skip (early return of the current status), `initWallet(m)`,
`initWalletFromSeed(s)`, the terminal `needs_password` / `no_wallet`
statuses, or the error state when `getSessionMnemonic` rejects. -/
inductive InitDecision
  | skip (st : InitializationStatus)
  | initFromMnemonic (m : String)
  | initFromSeed (s : String)
  | needsPassword
  | noWallet
  | sessionError (e : String)
deriving Repr, DecidableEq

/-- `loadStoredWallet` (src/unnamed/part_008 lines 277-360): early-return
unless the status is `idle` or `needs_password`; then try, in this order,
the volatile plaintext mnemonic, the volatile raw seed, the mnemonic store's
session; with no secret found, `needs_password` when an encrypted vault
exists, else `no_wallet`. -/
def loadStoredWallet (status : InitializationStatus) (vol : VolatileStorage)
    (store : MnemonicState) (now : Nat) : InitDecision :=
  if status ≠ .idle ∧ status ≠ .needs_password then .skip status
  else
    match getStr vol.sessionMnemonic with
    | some m => .initFromMnemonic m
    | none =>
      match getStr vol.storedSeed with
      | some s => .initFromSeed s
      | none =>
        match getSessionMnemonic store now with
        | .error e => .sessionError e
        | .ok r =>
          match getStr r with
          | some m => .initFromMnemonic m
          | none =>
            match store.encryptedMnemonic with
            | some e => if e ≠ [] then .needsPassword else .noWallet
            | none => .noWallet

/-! ### The deposit claim loop (the `l1Deposit` query, lines 539-594)

Each watched address is processed independently inside `Promise.all`:
`getLatestDepositTxId(addr)` is awaited OUTSIDE the inner try/catch, and the
claim attempt (`wallet.claimDeposit`) inside it.  The collaborators'
behaviour is passed as an environment: `latestDeposit addr = none` models
the matured-deposit query throwing, `some none` no matured deposit,
`some (some tx)` the deposit transaction id; `claimOk tx` tells whether
`wallet.claimDeposit tx` succeeds. -/
structure ClaimEnv where
  latestDeposit : String → Option (Option String)
  claimOk : String → Bool

/-- Outcome of one address's closure inside the `Promise.all`. -/
inductive AddrOutcome
  | queryFailed
  | noDeposit
  | claimed (tx : String)
  | claimFailed (tx : String)
deriving Repr, DecidableEq

/-- One address's processing: query the latest matured deposit (a throw here
escapes the closure), and if one exists try to claim it, catching claim
errors. -/
def processAddr (env : ClaimEnv) (addr : String) : AddrOutcome :=
  match env.latestDeposit addr with
  | none => .queryFailed
  | some none => .noDeposit
  | some (some tx) => if env.claimOk tx then .claimed tx else .claimFailed tx

/-- Whether an outcome is a successful claim (the closure ran
`unClaimedAddresses.delete(addr)`). -/
def isClaimed : AddrOutcome → Bool
  | .claimed _ => true
  | _ => false

/-- Calls the claim-loop cycle makes on its collaborators.
`signalBalanceRefresh` is the direct balance-refresh signal the spec
describes; in the source the corresponding call
(`queryClient.invalidateQueries` on the balance query) exists only as a
commented-out line, so no code path emits it. -/
inductive LoopCall
  | queryDeposit (addr : String)
  | claimDeposit (tx : String)
  | setWatched (addrs : List String)
  | signalBalanceRefresh
deriving Repr, DecidableEq

/-- The calls made inside one address's closure. -/
def addrCalls (env : ClaimEnv) (addr : String) : List LoopCall :=
  .queryDeposit addr ::
    (match env.latestDeposit addr with
     | some (some tx) => [.claimDeposit tx]
     | _ => [])

/-- Result of one claim-loop cycle. -/
structure CycleResult where
  outcomes : List (String × AddrOutcome)
  newWatched : List String
  queryErrored : Bool
  trace : List LoopCall
deriving Repr, DecidableEq

/-- One cycle of the `l1Deposit` query over the watched set.  All closures
run (the `Promise.all` starts them all and JavaScript has no cancellation),
so every address is queried and every found deposit's claim is attempted;
but if any closure's matured-deposit query threw, `Promise.all` rejects and
the code after it — `setOnchainDepositAddresses(unClaimedAddresses)` — never
runs, leaving the watched set unchanged.  Otherwise the claimed addresses
are removed.  No call path signals the balance reconciler. -/
def runCycle (watched : List String) (env : ClaimEnv) : CycleResult :=
  let outcomes := watched.map (fun a => (a, processAddr env a))
  let claimedAddrs := (outcomes.filter (fun p => isClaimed p.2)).map (fun p => p.1)
  let errored := outcomes.any (fun p => p.2 = .queryFailed)
  let newWatched :=
    if errored then watched else watched.filter (fun a => ¬ claimedAddrs.contains a)
  let trace :=
    (watched.map (addrCalls env)).flatten ++
      (if errored then [] else [.setWatched newWatched])
  { outcomes := outcomes
    newWatched := newWatched
    queryErrored := errored
    trace := trace }

/-- The ledger events on which the balance-update effect registers
`handleBalanceUpdate` (the `wallet.on` calls in lines 686-692), plus its
immediate initial fetch. -/
def registeredBalanceTriggers : List String :=
  ["transfer:claimed", "deposit:confirmed", "initial fetch"]

/-! ### The balance reconciler (`handleBalanceUpdate`, lines 604-675) -/

/-- Observable result of one `handleBalanceUpdate` run: the stored BTC
balance afterwards, the "Funds Received" toast delta if one was shown,
whether the transactions query was invalidated, and whether the
balance-mismatch warning fired. -/
structure ReconcileResult where
  btcBalance : Option Nat
  notification : Option Nat
  txRefresh : Bool
  mismatchWarning : Bool
deriving Repr, DecidableEq

/-- `handleBalanceUpdate`: read the previous balance from the store, fetch
the authoritative balance (`Number(currentBalance?.balance ?? 0)`; a fetch
failure is caught, leaving the state unchanged and emitting nothing), store
it, and toast the delta exactly when a previous balance existed and the new
one is strictly greater; the transaction list is invalidated exactly then.
A defined event balance hint differing from the fetched value only logs a
warning. -/
def handleBalanceUpdate (prevBtc : Option Nat) (fetched : Except String (Option Nat))
    (hint : Option Nat) : ReconcileResult :=
  match fetched with
  | .error _ =>
    { btcBalance := prevBtc, notification := none
      txRefresh := false, mismatchWarning := false }
  | .ok bal =>
    let newB := bal.getD 0
    let notif :=
      match prevBtc with
      | some p => if newB > p then some (newB - p) else none
      | none => none
    { btcBalance := some newB
      notification := notif
      txRefresh := notif.isSome
      mismatchWarning :=
        match hint with
        | some h => newB ≠ h
        | none => false }

/-! ### Interleaving model of concurrent `handleBalanceUpdate` runs

JavaScript is single-threaded, so each run consists of two atomic blocks
separated by the `await wallet.getBalance()` suspension point:
  * block 0 — `const previousBtcBalance = useWalletStore.getState().btcBalance`
    and the start of the fetch;
  * block 1 — the fetch resolves: `setBalance(newBtcBalance, ...)` writes the
    store, then the comparison against the locally captured
    `previousBtcBalance` decides the toast.
Nothing in the effect serializes two runs: each event callback invokes
`handleBalanceUpdate` immediately.  We model two runs A and B, each with its
own fetched value, driven by an explicit schedule (`true` steps run A). -/

/-- Local state of one in-flight `handleBalanceUpdate` run. -/
structure RunLocal where
  pc : Nat
  prevRead : Option Nat
deriving Repr, DecidableEq

/-- Record of one run's completed write-and-compare block: the previous
balance it had captured, the value it fetched, the store balance at the
moment it compared, and any notification it emitted. -/
structure CompareEvent where
  prevUsed : Option Nat
  fetched : Nat
  sharedAtCompare : Option Nat
  notified : Option Nat
deriving Repr, DecidableEq

/-- Shared store balance plus the two runs and the log of completed
compares. -/
structure ConcState where
  shared : Option Nat
  runA : RunLocal
  runB : RunLocal
  events : List CompareEvent
deriving Repr, DecidableEq

/-- One atomic block of one run: at pc 0 capture the store's balance and
start the fetch; at pc 1 write the fetched balance to the store and compare
it against the captured previous, toasting the delta on a strict increase. -/
def stepRun (shared : Option Nat) (r : RunLocal) (fetchVal : Nat) :
    Option Nat × RunLocal × Option CompareEvent :=
  match r.pc with
  | 0 => (shared, { pc := 1, prevRead := shared }, none)
  | 1 =>
    let notif :=
      match r.prevRead with
      | some p => if fetchVal > p then some (fetchVal - p) else none
      | none => none
    (some fetchVal, { r with pc := 2 },
      some { prevUsed := r.prevRead, fetched := fetchVal
             sharedAtCompare := shared, notified := notif })
  | _ => (shared, r, none)

/-- Run the scheduled interleaving of runs A and B (a `true` schedules A's
next atomic block). -/
def execSched (sched : List Bool) (fetchA fetchB : Nat) (init : Option Nat) :
    ConcState :=
  sched.foldl
    (fun st pick =>
      if pick then
        match stepRun st.shared st.runA fetchA with
        | (sh, r, ev) =>
          { st with shared := sh, runA := r
                    events := st.events ++ ev.toList }
      else
        match stepRun st.shared st.runB fetchB with
        | (sh, r, ev) =>
          { st with shared := sh, runB := r
                    events := st.events ++ ev.toList })
    { shared := init
      runA := { pc := 0, prevRead := none }
      runB := { pc := 0, prevRead := none }
      events := [] }

/-- A compare is fresh when the store's balance at compare time is exactly
the previous value the run captured; a stale compare is one where another
run replaced the snapshot in between. -/
def freshCompares (st : ConcState) : Prop :=
  ∀ e ∈ st.events, e.sharedAtCompare = e.prevUsed

instance (st : ConcState) : Decidable (freshCompares st) := by
  unfold freshCompares
  infer_instance

/-! ### Concrete fixtures used by witnesses and counterexamples -/

/-- A concrete 16-byte salt. -/
def salt0 : List Nat := List.replicate 16 0

/-- A concrete 12-byte iv. -/
def iv0 : List Nat := List.replicate 12 1

/-- A store holding a vault sealed under the password "pw". -/
def stW : MnemonicState :=
  saveEncryptedMnemonic initialMnemonicState "abandon ability" "pw" salt0 iv0

/-- The store after a successful unlock at time 1000 (session key "uuid-1",
expiry 1000 + 30 minutes). -/
def stSess : MnemonicState := (startSession stW "pw" "uuid-1" salt0 iv0 1000).1

/-- Volatile storage holding only a raw seed. -/
def volSeed : VolatileStorage := { sessionMnemonic := none, storedSeed := some "seed-1" }

/-- Claim environment where the matured-deposit query throws for "addrA" and
every other address has a claimable deposit "tx1". -/
def envC : ClaimEnv :=
  { latestDeposit := fun a => if a = "addrA" then none else some (some "tx1")
    claimOk := fun _ => true }

/-- Claim environment where every address has a claimable deposit "tx1". -/
def envOK : ClaimEnv :=
  { latestDeposit := fun _ => some (some "tx1")
    claimOk := fun _ => true }

/-- Claim environment with no query failures: "addrA" has no matured
deposit, "addrB" has deposit "txB" whose claim is rejected, "addrC" has
deposit "txC" whose claim succeeds. -/
def envM : ClaimEnv :=
  { latestDeposit := fun a =>
      if a = "addrA" then some none
      else if a = "addrB" then some (some "txB")
      else some (some "txC")
    claimOk := fun tx => tx ≠ "txB" }

/-! ## Helper lemmas -/

theorem bytesStr_strBytes (s : String) : bytesStr (strBytes s) = s := by
  simp [bytesStr, strBytes, List.map_map, Function.comp_def, Char.ofNat_toNat]

theorem strBytes_injective : Function.Injective strBytes := by
  intro a b h
  rw [← bytesStr_strBytes a, ← bytesStr_strBytes b, h]

theorem decL_encL (l r : List Nat) : decL (encL l ++ r) = some (l, r) := by
  simp only [encL, List.cons_append, decL]
  rw [if_pos (by simp)]
  rw [List.take_left, List.drop_left]

theorem aesGcmDecrypt_encrypt (key iv d : List Nat) :
    aesGcmDecrypt key iv (aesGcmEncrypt key iv d) = some d := by
  simp only [aesGcmEncrypt, aesGcmDecrypt, List.append_assoc, decL_encL]
  simp

theorem aesGcmDecrypt_wrong_key (key key' iv d : List Nat) (h : key' ≠ key) :
    aesGcmDecrypt key' iv (aesGcmEncrypt key iv d) = none := by
  simp only [aesGcmEncrypt, aesGcmDecrypt, List.append_assoc, decL_encL]
  rw [if_neg]
  intro hk
  exact h hk.1.symm

theorem deriveKey_salt_injective (p p' : String) (salt : List Nat)
    (h : deriveKey p' salt = deriveKey p salt) : p' = p := by
  have h1 : encL (strBytes p') = encL (strBytes p) := List.append_cancel_right h
  have h2 : strBytes p' = strBytes p := by
    exact (by simpa [encL] using h1 :
      (strBytes p').length = (strBytes p).length ∧ strBytes p' = strBytes p).2
  exact strBytes_injective h2

/-- Envelope framing: with a 16-byte salt and a 12-byte iv, the three slices
taken by `decryptMnemonic` recover exactly the three components written by
`encryptMnemonic`. -/
theorem envelope_slices (salt iv ct : List Nat) (hs : salt.length = 16)
    (hi : iv.length = 12) :
    (salt ++ iv ++ ct).take 16 = salt ∧
    ((salt ++ iv ++ ct).drop 16).take 12 = iv ∧
    (salt ++ iv ++ ct).drop 28 = ct := by
  have htake : (salt ++ (iv ++ ct)).take 16 = salt := by
    rw [← hs]; exact List.take_left salt (iv ++ ct)
  have hdrop16 : (salt ++ (iv ++ ct)).drop 16 = iv ++ ct := by
    rw [← hs]; exact List.drop_left salt (iv ++ ct)
  refine ⟨by simpa using htake, ?_, ?_⟩
  · rw [List.append_assoc] at *
    rw [hdrop16, ← hi]
    exact List.take_left iv ct
  · rw [List.append_assoc] at *
    have : (28 : Nat) = 16 + 12 := by norm_num
    rw [this, ← List.drop_drop, hdrop16, ← hi]
    exact List.drop_left iv ct

/-- Core round trip: decrypting a freshly sealed envelope with the sealing
password recovers the plaintext, for any 16-byte salt and 12-byte iv. -/
theorem decryptMnemonic_encryptMnemonic (m p : String) (salt iv : List Nat)
    (hs : salt.length = 16) (hi : iv.length = 12) :
    decryptMnemonic (encryptMnemonic m p salt iv) p = .ok m := by
  obtain ⟨h1, h2, h3⟩ :=
    envelope_slices salt iv (aesGcmEncrypt (deriveKey p salt) iv (strBytes m)) hs hi
  simp only [decryptMnemonic, encryptMnemonic, h1, h2, h3,
    aesGcmDecrypt_encrypt, bytesStr_strBytes]

/-- Core wrong-password behaviour: decrypting with any other password fails
with the single "Invalid password" error. -/
theorem decryptMnemonic_wrong_password (m p q : String) (salt iv : List Nat)
    (hs : salt.length = 16) (hi : iv.length = 12) (hpq : q ≠ p) :
    decryptMnemonic (encryptMnemonic m p salt iv) q = .error "Invalid password" := by
  obtain ⟨h1, h2, h3⟩ :=
    envelope_slices salt iv (aesGcmEncrypt (deriveKey p salt) iv (strBytes m)) hs hi
  have hkey : deriveKey q salt ≠ deriveKey p salt := by
    intro h
    exact hpq (deriveKey_salt_injective p q salt h)
  simp only [decryptMnemonic, encryptMnemonic, h1, h2, h3,
    aesGcmDecrypt_wrong_key _ _ _ _ hkey]

/-- Single error path of `decryptMnemonic`: it either succeeds or fails with
the one error value "Invalid password", for every envelope and password. -/
theorem decryptMnemonic_single_error (enc : List Nat) (p : String) :
    (∃ m, decryptMnemonic enc p = .ok m) ∨
    decryptMnemonic enc p = .error "Invalid password" := by
  cases h : aesGcmDecrypt (deriveKey p (enc.take 16)) ((enc.drop 16).take 12) (enc.drop 28) with
  | none => exact Or.inr (by simp [decryptMnemonic, h])
  | some m => exact Or.inl ⟨bytesStr m, by simp [decryptMnemonic, h]⟩

/-- The balance-refresh signal never appears among one address's calls. -/
theorem signal_not_in_addrCalls (env : ClaimEnv) (a : String) :
    LoopCall.signalBalanceRefresh ∉ addrCalls env a := by
  unfold addrCalls
  cases h : env.latestDeposit a with
  | none => simp
  | some o => cases o <;> simp

/-- The claim-loop cycle never emits the balance-refresh signal. -/
theorem signal_not_in_trace (watched : List String) (env : ClaimEnv) :
    LoopCall.signalBalanceRefresh ∉ (runCycle watched env).trace := by
  intro hmem
  simp only [runCycle, List.mem_append] at hmem
  rcases hmem with h | h
  · rw [List.mem_flatten] at h
    obtain ⟨l, hl, hin⟩ := h
    rw [List.mem_map] at hl
    obtain ⟨a, _, rfl⟩ := hl
    exact signal_not_in_addrCalls env a hin
  · split at h <;> simp at h

/-- A queried address with a non-throwing matured-deposit query never
yields the query-failed outcome. -/
theorem processAddr_ne_queryFailed (env : ClaimEnv) (a : String)
    (h : (env.latestDeposit a).isSome) : ¬ processAddr env a = .queryFailed := by
  rcases hd : env.latestDeposit a with _ | (_ | tx)
  · rw [hd] at h; simp at h
  · simp [processAddr, hd]
  · simp only [processAddr, hd]
    by_cases hc : env.claimOk tx <;> simp [hc]

/-- Membership in the claimed-address list amounts to having the claimed
outcome. -/
theorem mem_claimedAddrs (watched : List String) (env : ClaimEnv) (a : String)
    (ha : a ∈ watched) :
    (((watched.map (fun a => (a, processAddr env a))).filter
        (fun p => isClaimed p.2)).map (fun p => p.1)).contains a = true ↔
      isClaimed (processAddr env a) = true := by
  rw [List.elem_iff]
  constructor
  · intro hc
    rw [List.mem_map] at hc
    obtain ⟨p, hp, hpa⟩ := hc
    rw [List.mem_filter] at hp
    obtain ⟨hpm, hclaim⟩ := hp
    rw [List.mem_map] at hpm
    obtain ⟨b, _, rfl⟩ := hpm
    subst hpa
    exact hclaim
  · intro hc
    rw [List.mem_map]
    refine ⟨(a, processAddr env a), ?_, rfl⟩
    rw [List.mem_filter]
    exact ⟨List.mem_map_of_mem _ ha, hc⟩

/-- With no matured-deposit query failure, membership in the post-cycle
watched set is exactly non-claimed membership in the pre-cycle set. -/
theorem runCycle_newWatched_no_error (watched : List String) (env : ClaimEnv)
    (hq : ∀ a ∈ watched, (env.latestDeposit a).isSome) (a : String)
    (ha : a ∈ watched) :
    (a ∈ (runCycle watched env).newWatched ↔
      ¬ (isClaimed (processAddr env a) = true)) := by
  have herr : (watched.map (fun a => (a, processAddr env a))).any
      (fun p => p.2 = .queryFailed) = false := by
    rw [List.any_eq_false]
    intro p hp
    rw [List.mem_map] at hp
    obtain ⟨b, hb, rfl⟩ := hp
    simpa using processAddr_ne_queryFailed env b (hq b hb)
  simp only [runCycle, herr]
  rw [if_neg Bool.false_ne_true, List.mem_filter]
  simp only [ha, true_and, decide_eq_true_iff]
  rw [mem_claimedAddrs watched env a ha]

/-- With a matured-deposit query failure anywhere, the cycle's watched set
is left unchanged. -/
theorem runCycle_newWatched_error (watched : List String) (env : ClaimEnv)
    (hq : ∃ a ∈ watched, env.latestDeposit a = none) :
    (runCycle watched env).newWatched = watched := by
  obtain ⟨a, ha, hfail⟩ := hq
  have herr : (watched.map (fun a => (a, processAddr env a))).any
      (fun p => p.2 = .queryFailed) = true := by
    rw [List.any_eq_true]
    refine ⟨(a, processAddr env a), List.mem_map_of_mem _ ha, ?_⟩
    simp [processAddr, hfail]
  simp only [runCycle, herr]
  simp

/-- Every watched address's matured-deposit query appears in the cycle
trace. -/
theorem queryDeposit_in_trace (watched : List String) (env : ClaimEnv)
    (a : String) (ha : a ∈ watched) :
    LoopCall.queryDeposit a ∈ (runCycle watched env).trace := by
  simp only [runCycle, List.mem_append]
  left
  rw [List.mem_flatten]
  refine ⟨addrCalls env a, List.mem_map_of_mem _ ha, ?_⟩
  unfold addrCalls
  exact List.mem_cons_self _ _

/-! ## Claims -/

/-- C1: for every secret S and password P, decrypting the envelope produced
by sealing S under P with the same P returns S — `open(seal(S,P),P) = S`,
for any fresh 16-byte salt and 12-byte iv. -/
theorem C1_seal_open_roundTrip (S P : String) (salt iv : List Nat)
    (hs : salt.length = 16) (hi : iv.length = 12) :
    decryptMnemonic (encryptMnemonic S P salt iv) P = .ok S :=
  decryptMnemonic_encryptMnemonic S P salt iv hs hi

/-- Witness for C1 at the concrete secret "abandon ability" and password
"pw". -/
theorem C1_seal_open_roundTrip_witness :
    salt0.length = 16 ∧ iv0.length = 12 ∧
    decryptMnemonic (encryptMnemonic "abandon ability" "pw" salt0 iv0) "pw" =
      .ok "abandon ability" :=
  ⟨by decide, by decide,
    C1_seal_open_roundTrip "abandon ability" "pw" salt0 iv0 (by decide) (by decide)⟩

/-- C2 counterexample: the claim says a session never survives a full
application restart, but the persist middleware writes the whole store —
session key, expiry and session envelope included — to durable storage; at
time 2000 (well before the 30-minute expiry of a session started at 1000)
the restarted application recovers the recovery phrase with no password
entry. -/
theorem C2_session_restart_counterexample :
    getSessionMnemonic (restartApp stSess) 2000 = .ok (some "abandon ability") := by
  decide

/-- C2 amended: the session is persisted together with the vault under the
durable "mnemonic-storage" key and survives a full application restart
unchanged; in particular the session secret is exactly as obtainable after
the restart as before it (only `expiresAt`, `endSession` or a reset bound
the session's life, not the restart). -/
theorem C2_session_restart_amended (st : MnemonicState) (now : Nat) :
    restartApp st = st ∧
    getSessionMnemonic (restartApp st) now = getSessionMnemonic st now :=
  ⟨rfl, rfl⟩

/-- C3: opening a sealed envelope with a wrong password fails with the one
error "Invalid password", and for every envelope and password the only
possible failure is that same single error — so the wrong-password and
corrupt-envelope cases are indistinguishable by error detail. -/
theorem C3_decrypt_single_error_path (S P Q : String) (salt iv : List Nat)
    (hs : salt.length = 16) (hi : iv.length = 12) (hPQ : Q ≠ P) :
    decryptMnemonic (encryptMnemonic S P salt iv) Q = .error "Invalid password" ∧
    ∀ (enc : List Nat) (pw : String),
      (∃ m, decryptMnemonic enc pw = .ok m) ∨
      decryptMnemonic enc pw = .error "Invalid password" :=
  ⟨decryptMnemonic_wrong_password S P Q salt iv hs hi hPQ,
    fun enc pw => decryptMnemonic_single_error enc pw⟩

/-- Witness for C3 at the concrete wrong password "wrong" and a corrupt
(empty) envelope. -/
theorem C3_decrypt_single_error_path_witness :
    decryptMnemonic (encryptMnemonic "abandon ability" "pw" salt0 iv0) "wrong" =
      .error "Invalid password" ∧
    ((∃ m, decryptMnemonic [] "pw" = .ok m) ∨
      decryptMnemonic [] "pw" = .error "Invalid password") :=
  ⟨(C3_decrypt_single_error_path "abandon ability" "pw" "wrong" salt0 iv0
      (by decide) (by decide) (by decide)).1,
    (C3_decrypt_single_error_path "abandon ability" "pw" "wrong" salt0 iv0
      (by decide) (by decide) (by decide)).2 [] "pw"⟩

/-- C4 counterexample: the claim orders the secret sources as (a) a valid
SessionManager session, then (b) a raw volatile seed; in the code the
volatile seed is checked first.  Here the store holds a valid session
(yielding "abandon ability") and the volatile storage holds "seed-1", yet
`loadStoredWallet` initializes from the seed, not from the session
secret. -/
theorem C4_source_priority_counterexample :
    getSessionMnemonic stSess 2000 = .ok (some "abandon ability") ∧
    loadStoredWallet .idle volSeed stSess 2000 = .initFromSeed "seed-1" ∧
    loadStoredWallet .idle volSeed stSess 2000 ≠ .initFromMnemonic "abandon ability" := by
  decide

/-- C4 amended: from `idle` or `needs_password`, `loadStoredWallet` tries
the volatile plaintext mnemonic first, then the volatile raw seed, and only
then the mnemonic store's session secret; when all three are absent it
reaches `needs_password` exactly when a (non-empty) persisted encrypted
vault exists and `no_wallet` otherwise. -/
theorem C4_source_priority_amended (status : InitializationStatus)
    (vol : VolatileStorage) (store : MnemonicState) (now : Nat)
    (hst : status = .idle ∨ status = .needs_password) :
    (∀ m, getStr vol.sessionMnemonic = some m →
        loadStoredWallet status vol store now = .initFromMnemonic m) ∧
    (∀ s, getStr vol.sessionMnemonic = none → getStr vol.storedSeed = some s →
        loadStoredWallet status vol store now = .initFromSeed s) ∧
    (∀ r m, getStr vol.sessionMnemonic = none → getStr vol.storedSeed = none →
        getSessionMnemonic store now = .ok r → getStr r = some m →
        loadStoredWallet status vol store now = .initFromMnemonic m) ∧
    (∀ r, getStr vol.sessionMnemonic = none → getStr vol.storedSeed = none →
        getSessionMnemonic store now = .ok r → getStr r = none →
        ((loadStoredWallet status vol store now = .needsPassword ↔
            ∃ e, store.encryptedMnemonic = some e ∧ e ≠ []) ∧
          (loadStoredWallet status vol store now = .noWallet ↔
            ¬ ∃ e, store.encryptedMnemonic = some e ∧ e ≠ []))) := by
  have hcond : ¬ (status ≠ InitializationStatus.idle ∧
      status ≠ InitializationStatus.needs_password) := by
    rcases hst with h | h <;> simp [h]
  refine ⟨?_, ?_, ?_, ?_⟩
  · intro m hm
    simp [loadStoredWallet, hcond, hm]
  · intro s hm hs
    simp [loadStoredWallet, hcond, hm, hs]
  · intro r m hm hs hr hgr
    simp [loadStoredWallet, hcond, hm, hs, hr, hgr]
  · intro r hm hs hr hgr
    cases he : store.encryptedMnemonic with
    | none => simp [loadStoredWallet, hcond, hm, hs, hr, hgr, he]
    | some e =>
      by_cases hne : e = []
      · subst hne
        simp [loadStoredWallet, hcond, hm, hs, hr, hgr, he]
      · simp [loadStoredWallet, hcond, hm, hs, hr, hgr, he, hne]

/-- Witness for C4 amended: with only a volatile seed present, the decision
is to initialize from that seed. -/
theorem C4_source_priority_amended_witness :
    loadStoredWallet .idle volSeed stSess 2000 = .initFromSeed "seed-1" :=
  (C4_source_priority_amended .idle volSeed stSess 2000 (Or.inl rfl)).2.1
    "seed-1" (by decide) (by decide)

/-- C5 counterexample: a cycle that successfully claims a deposit for
"addrB" (and removes the address) still sends the balance reconciler no
refresh signal. -/
theorem C5_claim_signal_counterexample :
    isClaimed (processAddr envOK "addrB") = true ∧
    (runCycle ["addrB"] envOK).newWatched = [] ∧
    LoopCall.signalBalanceRefresh ∉ (runCycle ["addrB"] envOK).trace := by
  decide

/-- C5 amended: the claim loop never signals the balance reconciler
directly — no cycle, successful or not, emits a balance-refresh call (the
source's invalidation of the balance query is commented out); a balance
refresh after a claim instead relies on the ledger's "deposit:confirmed"
event, which is one of the reconciler's registered triggers. -/
theorem C5_claim_signal_amended (watched : List String) (env : ClaimEnv) :
    LoopCall.signalBalanceRefresh ∉ (runCycle watched env).trace ∧
    "deposit:confirmed" ∈ registeredBalanceTriggers :=
  ⟨signal_not_in_trace watched env, by decide⟩

/-- C6: when `startSession` fails because decrypting the persisted vault
with the supplied password fails, the whole store — session key, expiry and
session-encrypted envelope included — is returned exactly as it was, with
the error propagated. -/
theorem C6_startSession_no_partial_mutation (st : MnemonicState)
    (password sessionKey : String) (salt iv : List Nat) (now : Nat) (e : String)
    (h : getDecryptedMnemonic st password = .error e) :
    startSession st password sessionKey salt iv now = (st, .error e) := by
  simp [startSession, h]

/-- Witness for C6: a wrong password against the concrete vault leaves the
store untouched. -/
theorem C6_startSession_no_partial_mutation_witness :
    getDecryptedMnemonic stW "wrong" = .error "Invalid password" ∧
    startSession stW "wrong" "uuid-2" salt0 iv0 5000 =
      (stW, .error "Invalid password") :=
  ⟨by decide,
    C6_startSession_no_partial_mutation stW "wrong" "uuid-2" salt0 iv0 5000
      "Invalid password" (by decide)⟩

/-- C7: a reconciliation run with an existing previous balance emits exactly
one "funds received" notification carrying `new - previous` when the fetched
balance strictly exceeds the previous one, and no notification when it does
not. -/
theorem C7_balance_notification_monotonic (p b : Nat) (hint : Option Nat) :
    (b > p →
      (handleBalanceUpdate (some p) (.ok (some b)) hint).notification = some (b - p)) ∧
    (b ≤ p →
      (handleBalanceUpdate (some p) (.ok (some b)) hint).notification = none) := by
  constructor
  · intro h
    simp [handleBalanceUpdate, h]
  · intro h
    simp [handleBalanceUpdate, Nat.not_lt.mpr h]

/-- Witness for C7 at the spec's own example: previous 1000 and new 1500
notify "received 500"; previous 1500 and new 1000 notify nothing. -/
theorem C7_balance_notification_monotonic_witness :
    (handleBalanceUpdate (some 1000) (.ok (some 1500)) none).notification = some 500 ∧
    (handleBalanceUpdate (some 1500) (.ok (some 1000)) none).notification = none :=
  ⟨(C7_balance_notification_monotonic 1000 1500 none).1 (by decide),
    (C7_balance_notification_monotonic 1500 1000 none).2 (by decide)⟩

/-- C8 counterexample: with the matured-deposit query throwing for "addrA"
and a successful claim for "addrB", the cycle errors before committing the
watched-set update, so the successfully claimed "addrB" is NOT removed —
refuting the claim that a per-address failure (including a matured-deposit
query failure) leaves every successfully claimed address removed. -/
theorem C8_per_address_isolation_counterexample :
    processAddr envC "addrB" = .claimed "tx1" ∧
    (runCycle ["addrA", "addrB"] envC).queryErrored = true ∧
    "addrB" ∈ (runCycle ["addrA", "addrB"] envC).newWatched := by
  decide

/-- C8 amended: every watched address is processed in every cycle, and a
claim failure (claim rejected) is isolated: with no matured-deposit query
failure, exactly the successfully claimed addresses leave the watched set
and every other address — the claim-failed ones included — remains watched;
but a matured-deposit query failure on any address aborts the cycle's
watched-set update, leaving the whole set (successfully claimed addresses
included) unchanged. -/
theorem C8_per_address_isolation_amended (watched : List String) (env : ClaimEnv) :
    (∀ a ∈ watched, LoopCall.queryDeposit a ∈ (runCycle watched env).trace) ∧
    ((∀ a ∈ watched, (env.latestDeposit a).isSome) →
      ∀ a ∈ watched,
        (a ∈ (runCycle watched env).newWatched ↔
          ¬ (isClaimed (processAddr env a) = true))) ∧
    ((∃ a ∈ watched, env.latestDeposit a = none) →
      (runCycle watched env).newWatched = watched) :=
  ⟨fun a ha => queryDeposit_in_trace watched env a ha,
    fun hq a ha => runCycle_newWatched_no_error watched env hq a ha,
    fun hq => runCycle_newWatched_error watched env hq⟩

/-- Witness for C8 amended: in the query-failure-free environment the
claim-failed "addrB" stays watched and the claimed "addrC" is removed; in
the failing environment the whole set is unchanged. -/
theorem C8_per_address_isolation_amended_witness :
    LoopCall.queryDeposit "addrA" ∈ (runCycle ["addrA", "addrB", "addrC"] envM).trace ∧
    ("addrB" ∈ (runCycle ["addrA", "addrB", "addrC"] envM).newWatched ↔
      ¬ (isClaimed (processAddr envM "addrB") = true)) ∧
    ("addrC" ∈ (runCycle ["addrA", "addrB", "addrC"] envM).newWatched ↔
      ¬ (isClaimed (processAddr envM "addrC") = true)) ∧
    (runCycle ["addrA", "addrB"] envC).newWatched = ["addrA", "addrB"] :=
  ⟨(C8_per_address_isolation_amended ["addrA", "addrB", "addrC"] envM).1
      "addrA" (by decide),
    (C8_per_address_isolation_amended ["addrA", "addrB", "addrC"] envM).2.1
      (by decide) "addrB" (by decide),
    (C8_per_address_isolation_amended ["addrA", "addrB", "addrC"] envM).2.1
      (by decide) "addrC" (by decide),
    (C8_per_address_isolation_amended ["addrA", "addrB"] envC).2.2
      ⟨"addrA", by decide, by decide⟩⟩

/-- C9 counterexample: nothing serializes two `handleBalanceUpdate` runs;
under the schedule (A reads, B reads, B writes, A writes) with both runs
fetching 1500 over a previous balance of 1000, run A compares against the
stale previous 1000 while the store already holds 1500 — and both runs
toast "received 500" for the same single 500-sat increase. -/
theorem C9_serialized_reconciliation_counterexample :
    ¬ freshCompares (execSched [true, false, false, true] 1500 1500 (some 1000)) ∧
    (execSched [true, false, false, true] 1500 1500 (some 1000)).events.map
        CompareEvent.notified = [some 500, some 500] := by
  decide

/-- C9 amended: the code does not serialize reconciliation runs and
concurrent triggers do not coalesce; interleaved runs can compare a stale
previous snapshot against a newer fetched balance (see the counterexample).
What does hold is that each run re-reads the store's latest balance
immediately before its fetch, so whenever two runs do not overlap — one
completes before the other starts, in either order — every comparison uses
exactly the snapshot current at compare time. -/
theorem C9_serialized_reconciliation_amended (fA fB : Nat) (init : Option Nat) :
    freshCompares (execSched [true, true, false, false] fA fB init) ∧
    freshCompares (execSched [false, false, true, true] fA fB init) := by
  constructor <;>
  · intro e he
    simp only [execSched, stepRun, List.foldl, Option.toList, List.nil_append,
      List.append_nil, if_pos, if_neg, Bool.false_eq_true, ite_true, ite_false] at he
    simp at he
    rcases he with rfl | rfl <;> rfl

/-- C10: on the first reconciliation run of a session the stored balance is
still `undefined` (the wallet store's initial `btcBalance`); the run stores
the fetched balance and emits no "funds received" notification, however
large the fetched balance is. -/
theorem C10_first_fetch_no_notification (f : Nat) (hint : Option Nat) :
    (handleBalanceUpdate initialBtcBalance (.ok (some f)) hint).btcBalance = some f ∧
    (handleBalanceUpdate initialBtcBalance (.ok (some f)) hint).notification = none := by
  constructor <;> simp [handleBalanceUpdate, initialBtcBalance]

end SparkWallet
